import Mathlib

/-!
Verification development for the `ecce` repository.

The repository snapshot contains the MCP server (`src/mcp-server/src/index.ts`),
which is embedded faithfully below.  The Rust watch-loop core (`ecce homo`:
PatternScanner, AgentInvoker, ResultSplicer, WatchLoop) is not part of the
snapshot; the definitions concerning it are modelled from the specification and
are marked as such in their doc comments.
-/

namespace Ecce

/-! ## PatternScanner (modelled from the spec) -/

/-- Modelled from the spec: the reserved marker token `ecce` (the Rust scanner
implementation is not in the repository snapshot). -/
def marker : List Char := ['e', 'c', 'c', 'e']

/-- Boolean prefix test on character lists. -/
def pfx : List Char → List Char → Bool
  | [], _ => true
  | _ :: _, [] => false
  | a :: as, b :: bs => a == b && pfx as bs

/-- Index of the first occurrence of the marker token in a character list. -/
def findTok : List Char → Option Nat
  | [] => none
  | c :: rest => if pfx marker (c :: rest) then some 0 else (findTok rest).map (· + 1)

/-- Modelled from the spec: the two pattern kinds, inline and block. -/
inductive PatternKind where
  | inline
  | block
deriving DecidableEq

/-- Modelled from the spec: a detected prompt span — kind, span offsets in the
current buffer, and the prompt text. -/
structure Pattern where
  kind : PatternKind
  startOffset : Nat
  endOffset : Nat
  promptText : String
deriving DecidableEq

/-- Modelled from the spec: the fingerprint is a stable hash of promptText and
kind, independent of the offsets.  It is modelled as the (injective) pair. -/
abbrev Fingerprint := PatternKind × String

/-- Modelled from the spec: fingerprint of a pattern. -/
def Pattern.fingerprint (p : Pattern) : Fingerprint := (p.kind, p.promptText)

/-- Inline whitespace test used for trimming prompt text. -/
def isWs (c : Char) : Bool := c == ' ' || c == '\t'

/-- Trim surrounding whitespace from a character list. -/
def trimChars (l : List Char) : List Char :=
  ((l.dropWhile isWs).reverse.dropWhile isWs).reverse

/-- Modelled from the spec: all inline matches of one logical line.  `base` is
the absolute offset of the line start; the first marker occurrence opens a
match, the next occurrence closes it, the prompt is the trimmed text between
them, and scanning resumes after the closing marker.  A marker with no closing
occurrence yields no match.  Fuel decreases on each produced match. -/
def scanLineAux : Nat → List Char → Nat → List Pattern
  | 0, _, _ => []
  | Nat.succ fuel, l, base =>
    match findTok l with
    | none => []
    | some i =>
      match findTok (l.drop (i + 4)) with
      | none => []
      | some j =>
        Pattern.mk PatternKind.inline (base + i) (base + i + 4 + j + 4)
            (String.mk (trimChars ((l.drop (i + 4)).take j))) ::
          scanLineAux fuel ((l.drop (i + 4)).drop (j + 4)) (base + i + 4 + j + 4)

/-- Opening fence of a block pattern: the fence tagged with the marker. -/
def fenceOpen : List Char := '`' :: '`' :: '`' :: marker

/-- Closing fence of a block pattern. -/
def fenceClose : List Char := ['`', '`', '`']

/-- Index of the first closing-fence line. -/
def findCloseIdx : List (List Char) → Option Nat
  | [] => none
  | l :: rest => if l == fenceClose then some 0 else (findCloseIdx rest).map (· + 1)

/-- Drop a single leading blank (empty) line, if present. -/
def dropHeadBlank : List (List Char) → List (List Char)
  | [] :: rest => rest
  | ls => ls

/-- Drop a single trailing blank (empty) line, if present. -/
def dropTailBlank (ls : List (List Char)) : List (List Char) :=
  (dropHeadBlank ls.reverse).reverse

/-- Join lines with newline characters. -/
def joinLines : List (List Char) → List Char
  | [] => []
  | [l] => l
  | l :: ls => l ++ '\n' :: joinLines ls

/-- Modelled from the spec: prompt text of a block pattern — the verbatim
interior lines, trimmed of a single leading/trailing blank line if present. -/
def blockPrompt (interior : List (List Char)) : String :=
  String.mk (joinLines (dropTailBlank (dropHeadBlank interior)))

/-- Size of a line including its terminating newline. -/
def sumSizes (ls : List (List Char)) : Nat :=
  ls.foldr (fun l a => l.length + 1 + a) 0

/-- Modelled from the spec: scan a buffer (as lines) producing patterns in
ascending start-offset order.  A line equal to the tagged fence opens a block
pattern ending at the next closing-fence line (an unterminated block is
incomplete input and yields no match); every other line is scanned for inline
matches.  `base` is the absolute offset of the current line start. -/
def scanLinesAux : Nat → List (List Char) → Nat → List Pattern
  | 0, _, _ => []
  | Nat.succ _, [], _ => []
  | Nat.succ fuel, line :: rest, base =>
    if line == fenceOpen then
      match findCloseIdx rest with
      | none => []
      | some k =>
        Pattern.mk PatternKind.block base
            (base + line.length + 1 + sumSizes (rest.take k) + 4 - 1)
            (blockPrompt (rest.take k)) ::
          scanLinesAux fuel (rest.drop (k + 1))
            (base + line.length + 1 + sumSizes (rest.take k) + 4)
    else
      scanLineAux line.length line base ++
        scanLinesAux fuel rest (base + line.length + 1)

/-- Split a character buffer into lines at newline characters. -/
def splitLines : List Char → List (List Char)
  | [] => [[]]
  | c :: rest =>
    match splitLines rest with
    | [] => [[c]]
    | l :: ls => if c = '\n' then [] :: l :: ls else (c :: l) :: ls

/-- Modelled from the spec: scan a full buffer snapshot for all candidate
patterns, in ascending start-offset order. -/
def scanPatterns (buf : List Char) : List Pattern :=
  scanLinesAux (splitLines buf).length (splitLines buf) 0

/-- Modelled from the spec: the scanner's contract — the candidate patterns of
the buffer whose fingerprints are not already processed, in ascending
start-offset order. -/
def scanUnprocessed (buf : List Char) (S : List Fingerprint) : List Pattern :=
  (scanPatterns buf).filter (fun p => !decide (p.fingerprint ∈ S))

/-! ## ResultSplicer (modelled from the spec) -/

/-- Modelled from the spec: the two splice modes. -/
inductive SpliceMode where
  | replace
  | append
deriving DecidableEq

/-- Modelled from the spec: splice failure by concurrent external edit. -/
inductive SpliceError where
  | concurrentModificationConflict
deriving DecidableEq

/-- Radius of the neighbourhood compared around the span before splicing (the
spec asks for a short content fingerprint of the span and its immediate
neighbourhood; the exact radius is a modelling constant). -/
def nbhdRadius : Nat := 16

/-- Slice of a buffer between saturating bounds. -/
def slice (l : List Char) (a b : Nat) : List Char := (l.take b).drop a

/-- Modelled from the spec: pre-splice verification — the span and its
immediate neighbourhood in the freshly re-read file must still match the
scanned snapshot. -/
def spliceCheck (current scanned : List Char) (span : Nat × Nat) : Bool :=
  decide (slice current (span.1 - nbhdRadius) (span.2 + nbhdRadius) =
    slice scanned (span.1 - nbhdRadius) (span.2 + nbhdRadius))

/-- Modelled from the spec: replace mode — overwrite the full matched span
(markers included) with the generated text. -/
def applyReplace (current : List Char) (span : Nat × Nat) (gen : String) : List Char :=
  current.take span.1 ++ gen.data ++ current.drop span.2

/-- Index of the first newline in a character list, or its length. -/
def idxNl : List Char → Nat
  | [] => 0
  | c :: rest => if c = '\n' then 0 else idxNl rest + 1

/-- Modelled from the spec: append mode — leave the span untouched and insert
the generated text immediately after the line containing the span's end,
separated by a blank line. -/
def applyAppend (current : List Char) (span : Nat × Nat) (gen : String) : List Char :=
  current.take (span.2 + idxNl (current.drop span.2) + 1) ++
    '\n' :: gen.data ++ '\n' ::
      current.drop (span.2 + idxNl (current.drop span.2) + 1)

/-- Modelled from the spec: the splice operation — verify the span context in
the current file content, then apply the edit as a whole-buffer
read-modify-write; on a failed verification abort with
`ConcurrentModificationConflict` and change nothing. -/
def splice (current scanned : List Char) (span : Nat × Nat) (gen : String)
    (mode : SpliceMode) : Except SpliceError (List Char) :=
  if spliceCheck current scanned span then
    Except.ok (match mode with
      | SpliceMode.replace => applyReplace current span gen
      | SpliceMode.append => applyAppend current span gen)
  else
    Except.error SpliceError.concurrentModificationConflict

/-! ## WatchLoop (modelled from the spec) -/

/-- Modelled from the spec: the session state the loop carries between
processing passes — the last buffer snapshot and the processed-fingerprint
ledger. -/
structure LoopState where
  file : List Char
  processed : List Fingerprint
deriving DecidableEq

/-- Modelled from the spec: what the environment contributes to one processing
pass — the external agent's result for the invoked pattern, the file content
as it stands when the splice re-reads it (the user may have edited it during
the invocation), and the session's splice mode. -/
structure EnvInput where
  agentResult : Except String String
  fileAtSplice : List Char
  mode : SpliceMode

/-- Observable events of one processing pass. -/
inductive Event where
  | invoked (p : Pattern)
  | spliced (fp : Fingerprint)
  | conflictDetected (fp : Fingerprint)
  | invocationFailed (fp : Fingerprint)
  | idle
deriving DecidableEq

/-- Modelled from the spec: one processing pass given the scan result — no
match returns to polling; otherwise the first (least-offset) unprocessed match
is submitted to the agent; on success the splice runs against the freshly
re-read file, and only a successful splice records the fingerprint; a conflict
leaves the ledger unchanged and re-enters scanning on the re-read buffer; an
invocation failure leaves everything unchanged for a later retry. -/
def tickWith (s : LoopState) (env : EnvInput) : List Pattern → LoopState × List Event
  | [] => (s, [Event.idle])
  | p :: _ =>
    match env.agentResult with
    | Except.error _ => (s, [Event.invoked p, Event.invocationFailed p.fingerprint])
    | Except.ok t =>
      match splice env.fileAtSplice s.file (p.startOffset, p.endOffset) t env.mode with
      | Except.ok newFile =>
          (LoopState.mk newFile (p.fingerprint :: s.processed),
            [Event.invoked p, Event.spliced p.fingerprint])
      | Except.error _ =>
          (LoopState.mk env.fileAtSplice s.processed,
            [Event.invoked p, Event.conflictDetected p.fingerprint])

/-- Modelled from the spec: one processing pass of the watch loop
(scan → invoke → splice). -/
def tick (s : LoopState) (env : EnvInput) : LoopState × List Event :=
  tickWith s env (scanUnprocessed s.file s.processed)

/-- Modelled from the spec: a run of the watch loop over a sequence of
environment inputs, collecting all events in order. -/
def run : LoopState → List EnvInput → LoopState × List Event
  | s, [] => (s, [])
  | s, e :: es => ((run (tick s e).1 es).1, (tick s e).2 ++ (run (tick s e).1 es).2)

/-! ## MCP server: `runEcce` (src/mcp-server/src/index.ts, lines 43-68) -/

/-- Result shape of `runEcce`. -/
structure RunResult where
  stdout : String
  stderr : String
  code : Int
deriving DecidableEq

/-- How the spawned `ecce` child process can end: either the `error` event
fires (spawn failure) or the `close` event fires with a possibly-null exit
code after the output streams have been fully accumulated. -/
inductive ProcOutcome where
  | errored (message : String)
  | closed (stdout stderr : String) (code : Option Int)
deriving DecidableEq

/-- `runEcce`: on `close` it resolves with the accumulated streams and
`code ?? 1`; on `error` it resolves with empty stdout, the error message as
stderr, and code 1.  The promise executor only ever calls `resolve`, so the
function is total — it never rejects. -/
def runEcce : ProcOutcome → RunResult
  | ProcOutcome.errored m => RunResult.mk "" m 1
  | ProcOutcome.closed out err c => RunResult.mk out err (c.getD 1)

/-! ## MCP server: tool-call handler (src/mcp-server/src/index.ts, lines 353-599) -/

/-- JavaScript `a || b` on strings: `b` exactly when `a` is empty (falsy). -/
def jsOr (a b : String) : String := if a = "" then b else a

/-- The `request.params.arguments` fields the tool handlers destructure.  A
string field that JavaScript would see as `undefined` is modelled as `""`
(both are falsy, and every use is either a truthiness test or interpolation of
a present required field); absent booleans are `false`. -/
structure ToolArgs where
  name : String
  url : String
  api_key : String
  system_prompt : String
  description : String
  tools : String
  model : String
  path : String
  instructions : String
  json : String
  user : Bool
  isGlobal : Bool

/-- A tool-call response: its single text content and the `isError` flag
(absent in the source on success, i.e. false). -/
structure ToolResponse where
  text : String
  isError : Bool
deriving DecidableEq

/-- The text returned by the `ecce_homo_info` tool (source lines 558-582),
transcribed verbatim. -/
def homoInfoText : String :=
  "# ecce homo - File Watching Feature\n\nThe \x27ecce homo\x27 command watches files for special patterns and automatically triggers Claude agents to generate content.\n\n## Pattern Types\n\n### Inline Pattern\n`ecce <your prompt here> ecce`\n\n### Code Block Pattern\n```ecce\n<your prompt here>\n```\n\n## Usage\nRun from terminal: `ecce homo <file-path>`\n\nOptions:\n- `--agent <name>`: Use a specific agent\n- `--task <name>`: Use a specific task template\n- `--interval <ms>`: Set watch interval (default: 100ms)\n\nThe command will watch the file and replace patterns with AI-generated responses.\n\nNote: This is an interactive command that runs in the terminal and cannot be executed via MCP."

/-- Command line built by the `ecce_agent_add` case (conditional pushes for
the truthy optional fields, in source order). -/
def agentAddArgs (a : ToolArgs) : List String :=
  (((["agent", "add", a.name, a.system_prompt]).append
      (if a.description ≠ "" then ["--description", a.description] else [])).append
    (if a.tools ≠ "" then ["--tools", a.tools] else [])).append
    (if a.model ≠ "" then ["--model", a.model] else [])

/-- Command line built by the `ecce_agent_export` case. -/
def agentExportArgs (a : ToolArgs) : List String :=
  ((["agent", "export"]).append (if a.name ≠ "" then [a.name] else [])).append
    (if a.user then ["--user"] else [])

/-- Command line built by the `ecce_task_add` case. -/
def taskAddArgs (a : ToolArgs) : List String :=
  (["task", "add", a.name, a.instructions]).append
    (if a.description ≠ "" then ["--description", a.description] else [])

/-- Command line built by the `ecce_mcp_install` and `ecce_mcp_uninstall`
cases. -/
def mcpFlagArgs (sub : String) (a : ToolArgs) : List String :=
  (["mcp", sub, a.name]).append (if a.isGlobal then ["--global"] else [])

/-- The switch of the CallTool handler, parameterised by the process runner
(`runEcce` composed with the actual child-process behaviour).  Each case
mirrors the source: spawn `ecce` with the subcommand arguments and return
`stdout || stderr` (with the case's fallback literal where the source has
one).  The final case is the `default` branch. -/
def callToolBody (runner : List String → RunResult) (name : String) (a : ToolArgs) :
    ToolResponse :=
  if name = "ecce_api_list" then
    ToolResponse.mk (jsOr (runner ["api", "list"]).stdout (runner ["api", "list"]).stderr) false
  else if name = "ecce_api_add" then
    ToolResponse.mk
      (jsOr (runner ["api", "add", a.name, "--url", a.url, "--key", a.api_key]).stdout
        (jsOr (runner ["api", "add", a.name, "--url", a.url, "--key", a.api_key]).stderr
          "Profile added successfully")) false
  else if name = "ecce_api_switch" then
    ToolResponse.mk
      (jsOr (runner ["api", "switch", a.name]).stdout
        (jsOr (runner ["api", "switch", a.name]).stderr
          ("Switched to profile: " ++ a.name))) false
  else if name = "ecce_api_delete" then
    ToolResponse.mk
      (jsOr (runner ["api", "delete", a.name]).stdout
        (jsOr (runner ["api", "delete", a.name]).stderr
          ("Deleted profile: " ++ a.name))) false
  else if name = "ecce_api_current" then
    ToolResponse.mk
      (jsOr (runner ["api", "current"]).stdout (runner ["api", "current"]).stderr) false
  else if name = "ecce_api_status" then
    ToolResponse.mk
      (jsOr (runner ["api", "status"]).stdout (runner ["api", "status"]).stderr) false
  else if name = "ecce_api_set_default" then
    ToolResponse.mk
      (jsOr (runner ["api", "set-default", a.name]).stdout
        (jsOr (runner ["api", "set-default", a.name]).stderr
          ("Set default profile: " ++ a.name))) false
  else if name = "ecce_agent_list" then
    ToolResponse.mk
      (jsOr (runner ["agent", "list"]).stdout (runner ["agent", "list"]).stderr) false
  else if name = "ecce_agent_add" then
    ToolResponse.mk
      (jsOr (runner (agentAddArgs a)).stdout
        (jsOr (runner (agentAddArgs a)).stderr
          ("Agent \x27" ++ a.name ++ "\x27 added successfully"))) false
  else if name = "ecce_agent_delete" then
    ToolResponse.mk
      (jsOr (runner ["agent", "delete", a.name]).stdout
        (jsOr (runner ["agent", "delete", a.name]).stderr
          ("Deleted agent: " ++ a.name))) false
  else if name = "ecce_agent_export" then
    ToolResponse.mk
      (jsOr (runner (agentExportArgs a)).stdout
        (jsOr (runner (agentExportArgs a)).stderr
          "Agents exported successfully")) false
  else if name = "ecce_agent_import" then
    ToolResponse.mk
      (jsOr (runner ["agent", "import", a.path]).stdout
        (jsOr (runner ["agent", "import", a.path]).stderr
          "Agent imported successfully")) false
  else if name = "ecce_agent_sync" then
    ToolResponse.mk
      (jsOr (runner ["agent", "sync"]).stdout
        (jsOr (runner ["agent", "sync"]).stderr
          "Agents synced successfully")) false
  else if name = "ecce_task_list" then
    ToolResponse.mk
      (jsOr (runner ["task", "list"]).stdout (runner ["task", "list"]).stderr) false
  else if name = "ecce_task_add" then
    ToolResponse.mk
      (jsOr (runner (taskAddArgs a)).stdout
        (jsOr (runner (taskAddArgs a)).stderr
          ("Task \x27" ++ a.name ++ "\x27 added successfully"))) false
  else if name = "ecce_task_delete" then
    ToolResponse.mk
      (jsOr (runner ["task", "delete", a.name]).stdout
        (jsOr (runner ["task", "delete", a.name]).stderr
          ("Deleted task: " ++ a.name))) false
  else if name = "ecce_mcp_add" then
    ToolResponse.mk
      (jsOr (runner ["mcp", "add", a.name, a.json]).stdout
        (jsOr (runner ["mcp", "add", a.name, a.json]).stderr
          ("MCP server \x27" ++ a.name ++ "\x27 added"))) false
  else if name = "ecce_mcp_remove" then
    ToolResponse.mk
      (jsOr (runner ["mcp", "remove", a.name]).stdout
        (jsOr (runner ["mcp", "remove", a.name]).stderr
          ("MCP server \x27" ++ a.name ++ "\x27 removed"))) false
  else if name = "ecce_mcp_list" then
    ToolResponse.mk
      (jsOr (runner ["mcp", "list"]).stdout (runner ["mcp", "list"]).stderr) false
  else if name = "ecce_mcp_install" then
    ToolResponse.mk
      (jsOr (runner (mcpFlagArgs "install" a)).stdout
        (jsOr (runner (mcpFlagArgs "install" a)).stderr
          ("MCP server \x27" ++ a.name ++ "\x27 installed"))) false
  else if name = "ecce_mcp_uninstall" then
    ToolResponse.mk
      (jsOr (runner (mcpFlagArgs "uninstall" a)).stdout
        (jsOr (runner (mcpFlagArgs "uninstall" a)).stderr
          ("MCP server \x27" ++ a.name ++ "\x27 uninstalled"))) false
  else if name = "ecce_mcp_status" then
    ToolResponse.mk
      (jsOr (runner ["mcp", "status"]).stdout (runner ["mcp", "status"]).stderr) false
  else if name = "ecce_homo_info" then
    ToolResponse.mk homoInfoText false
  else
    ToolResponse.mk ("Unknown tool: " ++ name) true

/-- The try/catch wrapper around the CallTool switch: a thrown exception is
caught and turned into an `Error: <message>` response with `isError` set; a
normal result passes through.  The thrown-or-returned outcome of the body is
the argument. -/
def callToolHandler : Except String ToolResponse → ToolResponse
  | Except.ok r => r
  | Except.error m => ToolResponse.mk ("Error: " ++ m) true

/-- The 22 configuration-management tools: every tool of the switch except the
purely informational `ecce_homo_info`. -/
def managementTools : List String :=
  ["ecce_api_list", "ecce_api_add", "ecce_api_switch", "ecce_api_delete",
   "ecce_api_current", "ecce_api_status", "ecce_api_set_default",
   "ecce_agent_list", "ecce_agent_add", "ecce_agent_delete",
   "ecce_agent_export", "ecce_agent_import", "ecce_agent_sync",
   "ecce_task_list", "ecce_task_add", "ecce_task_delete",
   "ecce_mcp_add", "ecce_mcp_remove", "ecce_mcp_list",
   "ecce_mcp_install", "ecce_mcp_uninstall", "ecce_mcp_status"]

/-- All tool names the switch recognises. -/
def knownToolNames : List String := managementTools ++ ["ecce_homo_info"]

/-- The subcommand argument list each management tool passes to the `ecce`
executable (specification-side characterisation, one entry per source case). -/
def ecceCmdArgs (name : String) (a : ToolArgs) : List String :=
  if name = "ecce_api_list" then ["api", "list"]
  else if name = "ecce_api_add" then ["api", "add", a.name, "--url", a.url, "--key", a.api_key]
  else if name = "ecce_api_switch" then ["api", "switch", a.name]
  else if name = "ecce_api_delete" then ["api", "delete", a.name]
  else if name = "ecce_api_current" then ["api", "current"]
  else if name = "ecce_api_status" then ["api", "status"]
  else if name = "ecce_api_set_default" then ["api", "set-default", a.name]
  else if name = "ecce_agent_list" then ["agent", "list"]
  else if name = "ecce_agent_add" then agentAddArgs a
  else if name = "ecce_agent_delete" then ["agent", "delete", a.name]
  else if name = "ecce_agent_export" then agentExportArgs a
  else if name = "ecce_agent_import" then ["agent", "import", a.path]
  else if name = "ecce_agent_sync" then ["agent", "sync"]
  else if name = "ecce_task_list" then ["task", "list"]
  else if name = "ecce_task_add" then taskAddArgs a
  else if name = "ecce_task_delete" then ["task", "delete", a.name]
  else if name = "ecce_mcp_add" then ["mcp", "add", a.name, a.json]
  else if name = "ecce_mcp_remove" then ["mcp", "remove", a.name]
  else if name = "ecce_mcp_list" then ["mcp", "list"]
  else if name = "ecce_mcp_install" then mcpFlagArgs "install" a
  else if name = "ecce_mcp_uninstall" then mcpFlagArgs "uninstall" a
  else if name = "ecce_mcp_status" then ["mcp", "status"]
  else []

/-- The fixed fallback string of each management tool — used only when both
stdout and stderr are empty; it depends on the tool and its arguments, never
on the process result (empty for the tools whose source case has no third
alternative). -/
def ecceFallback (name : String) (a : ToolArgs) : String :=
  if name = "ecce_api_add" then "Profile added successfully"
  else if name = "ecce_api_switch" then "Switched to profile: " ++ a.name
  else if name = "ecce_api_delete" then "Deleted profile: " ++ a.name
  else if name = "ecce_api_set_default" then "Set default profile: " ++ a.name
  else if name = "ecce_agent_add" then "Agent \x27" ++ a.name ++ "\x27 added successfully"
  else if name = "ecce_agent_delete" then "Deleted agent: " ++ a.name
  else if name = "ecce_agent_export" then "Agents exported successfully"
  else if name = "ecce_agent_import" then "Agent imported successfully"
  else if name = "ecce_agent_sync" then "Agents synced successfully"
  else if name = "ecce_task_add" then "Task \x27" ++ a.name ++ "\x27 added successfully"
  else if name = "ecce_task_delete" then "Deleted task: " ++ a.name
  else if name = "ecce_mcp_add" then "MCP server \x27" ++ a.name ++ "\x27 added"
  else if name = "ecce_mcp_remove" then "MCP server \x27" ++ a.name ++ "\x27 removed"
  else if name = "ecce_mcp_install" then "MCP server \x27" ++ a.name ++ "\x27 installed"
  else if name = "ecce_mcp_uninstall" then "MCP server \x27" ++ a.name ++ "\x27 uninstalled"
  else ""

/-! ## MCP server: resources (src/mcp-server/src/index.ts, lines 17-41 and 640-734) -/

/-- JSON values, the shape `JSON.stringify` receives; serialisation itself is
outside the model. -/
inductive Json where
  | null
  | bool (b : Bool)
  | num (n : Int)
  | str (s : String)
  | arr (elems : List Json)
  | obj (fields : List (String × Json))

/-- An API profile of the configuration (interface `EcceConfig`). -/
structure Profile where
  name : String
  url : String
  api_key : String
deriving DecidableEq

/-- An agent entry of the configuration. -/
structure AgentCfg where
  system_prompt : String
  description : Option String
  tools : Option (List String)
  model : Option String

/-- A task entry of the configuration. -/
structure TaskCfg where
  additional_instructions : String
  description : Option String

/-- An MCP server entry of the configuration. -/
structure McpCfg where
  name : String
  config : Json

/-- The parsed configuration file (interface `EcceConfig`); records are
modelled as association lists. -/
structure EcceConfig where
  profiles : List Profile
  active_profile : Option String
  default_profile : Option String
  agents : List (String × AgentCfg)
  tasks : List (String × TaskCfg)
  mcp_servers : List (String × McpCfg)
  default_agent : Option String
  claude_executable : Option String

/-- JSON of a nullable string field. -/
def optStrJson : Option String → Json
  | none => Json.null
  | some s => Json.str s

/-- JSON of an agent entry (`JSON.stringify` omits absent optional fields). -/
def agentJson (a : AgentCfg) : Json :=
  Json.obj ((("system_prompt", Json.str a.system_prompt) ::
      (match a.description with
        | some d => [("description", Json.str d)]
        | none => [])).append
    ((match a.tools with
        | some ts => [("tools", Json.arr (ts.map Json.str))]
        | none => []).append
      (match a.model with
        | some m => [("model", Json.str m)]
        | none => [])))

/-- JSON of the agents record. -/
def agentsJson (l : List (String × AgentCfg)) : Json :=
  Json.obj (l.map (fun e => (e.1, agentJson e.2)))

/-- JSON of a task entry. -/
def taskJson (t : TaskCfg) : Json :=
  Json.obj (("additional_instructions", Json.str t.additional_instructions) ::
    (match t.description with
      | some d => [("description", Json.str d)]
      | none => []))

/-- JSON of the tasks record. -/
def tasksJson (l : List (String × TaskCfg)) : Json :=
  Json.obj (l.map (fun e => (e.1, taskJson e.2)))

/-- JSON of the mcp_servers record. -/
def mcpServersJson (l : List (String × McpCfg)) : Json :=
  Json.obj (l.map (fun e =>
    (e.1, Json.obj [("name", Json.str e.2.name), ("config", e.2.config)])))

/-- The masked profile object of the `ecce://config` resource: the source maps
each profile to name, url, and the literal `***hidden***` api_key. -/
def maskedProfileJson (p : Profile) : Json :=
  Json.obj [("name", Json.str p.name), ("url", Json.str p.url),
    ("api_key", Json.str "***hidden***")]

/-- The `safeConfig` object returned by the `ecce://config` resource. -/
def configJson (c : EcceConfig) : Json :=
  Json.obj [("profiles", Json.arr (c.profiles.map maskedProfileJson)),
    ("active_profile", optStrJson c.active_profile),
    ("default_profile", optStrJson c.default_profile),
    ("agents", agentsJson c.agents),
    ("tasks", tasksJson c.tasks),
    ("mcp_servers", mcpServersJson c.mcp_servers),
    ("default_agent", optStrJson c.default_agent),
    ("claude_executable", optStrJson c.claude_executable)]

/-- JavaScript `p.name === config.active_profile` where the right side is a
nullable string. -/
def jsStrEqOpt (s : String) : Option String → Bool
  | some t => s == t
  | none => false

/-- One entry of the `ecce://profiles` resource: name, url, is_active and
is_default only — no api_key field. -/
def profileEntryJson (c : EcceConfig) (p : Profile) : Json :=
  Json.obj [("name", Json.str p.name), ("url", Json.str p.url),
    ("is_active", Json.bool (jsStrEqOpt p.name c.active_profile)),
    ("is_default", Json.bool (jsStrEqOpt p.name c.default_profile))]

/-- The object returned by the `ecce://profiles` resource. -/
def profilesJson (c : EcceConfig) : Json :=
  Json.obj [("profiles", Json.arr (c.profiles.map (profileEntryJson c))),
    ("active_profile", optStrJson c.active_profile),
    ("default_profile", optStrJson c.default_profile)]

/-- Body of a resource response: a JSON document (the source serialises it
with `JSON.stringify(_, null, 2)`) or plain text. -/
inductive RBody where
  | jsonBody (j : Json)
  | plainBody (s : String)

/-- A ReadResource response content. -/
structure ResourceContent where
  uri : String
  mimeType : String
  body : RBody

/-- The error document returned for every resource when the config file is
missing or unparseable (`loadConfig` returned null). -/
def configNotFoundJson : Json :=
  Json.obj [("error", Json.str "Config not found. Run \x27ecce\x27 to initialize.")]

/-- The ReadResource handler: `loadConfig` catches any read/parse failure and
returns null, modelled as the `Option EcceConfig` argument; a null config
yields the error document for every uri, otherwise the switch on the uri with
its `default` branch returning a plain-text unknown-resource body. -/
def readResource (cfg : Option EcceConfig) (uri : String) : ResourceContent :=
  match cfg with
  | none => ResourceContent.mk uri "application/json" (RBody.jsonBody configNotFoundJson)
  | some c =>
    if uri = "ecce://config" then
      ResourceContent.mk uri "application/json" (RBody.jsonBody (configJson c))
    else if uri = "ecce://profiles" then
      ResourceContent.mk uri "application/json" (RBody.jsonBody (profilesJson c))
    else if uri = "ecce://agents" then
      ResourceContent.mk uri "application/json" (RBody.jsonBody
        (Json.obj [("agents", agentsJson c.agents),
          ("default_agent", optStrJson c.default_agent)]))
    else if uri = "ecce://tasks" then
      ResourceContent.mk uri "application/json" (RBody.jsonBody
        (Json.obj [("tasks", tasksJson c.tasks)]))
    else if uri = "ecce://mcp-servers" then
      ResourceContent.mk uri "application/json" (RBody.jsonBody
        (Json.obj [("mcp_servers", mcpServersJson c.mcp_servers)]))
    else
      ResourceContent.mk uri "text/plain" (RBody.plainBody ("Unknown resource: " ++ uri))

/-- The five resource uris listed by the server. -/
def resourceUris : List String :=
  ["ecce://config", "ecce://profiles", "ecce://agents", "ecce://tasks",
   "ecce://mcp-servers"]

/-- Replace every profile's api_key by the image of an arbitrary rekeying
function (used to state that the resource outputs do not depend on keys). -/
def rekeyProfiles (f : String → String) (c : EcceConfig) : EcceConfig :=
  EcceConfig.mk (c.profiles.map (fun p => Profile.mk p.name p.url (f p.api_key)))
    c.active_profile c.default_profile c.agents c.tasks c.mcp_servers
    c.default_agent c.claude_executable

/-! ## Substring utilities (for analysing the embedded tool text) -/

/-- Does `needle` occur as a contiguous substring of `hay`? -/
def occursSub : List Char → List Char → Bool
  | n, [] => pfx n []
  | n, c :: rest => pfx n (c :: rest) || occursSub n rest

/-- Number of positions of `hay` at which `needle` occurs. -/
def countSub : List Char → List Char → Nat
  | _, [] => 0
  | n, c :: rest => (if pfx n (c :: rest) then 1 else 0) + countSub n rest

/-! ## Scanner lemmas -/

theorem pfx_length : ∀ {as bs : List Char}, pfx as bs = true → as.length ≤ bs.length := by
  intro as
  induction as with
  | nil => intro bs _; simp
  | cons a as ih =>
    intro bs h
    cases bs with
    | nil => simp [pfx] at h
    | cons b bs =>
      simp only [pfx, Bool.and_eq_true] at h
      simpa using ih h.2

theorem findTok_bound : ∀ {l : List Char} {i : Nat}, findTok l = some i → i + 4 ≤ l.length := by
  intro l
  induction l with
  | nil => intro i h; simp [findTok] at h
  | cons c rest ih =>
    intro i h
    simp only [findTok] at h
    split at h
    · obtain rfl : 0 = i := Option.some.inj h
      have hlen := pfx_length (by assumption)
      simpa [marker] using hlen
    · cases hm : findTok rest with
      | none => rw [hm] at h; simp at h
      | some i2 =>
        rw [hm] at h
        obtain rfl : i2 + 1 = i := Option.some.inj (by simpa using h)
        have := ih hm
        simp only [List.length_cons]
        omega

theorem scanLineAux_bounds : ∀ (fuel : Nat) (l : List Char) (base : Nat) (p : Pattern),
    p ∈ scanLineAux fuel l base →
    base ≤ p.startOffset ∧ p.startOffset + 8 ≤ base + l.length := by
  intro fuel
  induction fuel with
  | zero => intro l base p hp; simp [scanLineAux] at hp
  | succ fuel ih =>
    intro l base p hp
    simp only [scanLineAux] at hp
    split at hp
    · simp at hp
    · rename_i i h1
      split at hp
      · simp at hp
      · rename_i j h2
        have b1 := findTok_bound h1
        have b2 := findTok_bound h2
        rw [List.length_drop] at b2
        simp only [List.mem_cons] at hp
        rcases hp with rfl | hp
        · constructor
          · show base ≤ base + i
            omega
          · show base + i + 8 ≤ base + l.length
            omega
        · have hb := ih _ _ _ hp
          rw [List.length_drop, List.length_drop] at hb
          constructor
          · omega
          · omega

theorem scanLineAux_sorted : ∀ (fuel : Nat) (l : List Char) (base : Nat),
    (scanLineAux fuel l base).Pairwise (fun p q => p.startOffset < q.startOffset) := by
  intro fuel
  induction fuel with
  | zero => intro l base; simp [scanLineAux]
  | succ fuel ih =>
    intro l base
    simp only [scanLineAux]
    split
    · simp
    · rename_i i h1
      split
      · simp
      · rename_i j h2
        refine List.Pairwise.cons ?_ (ih _ _)
        intro q hq
        have hb := (scanLineAux_bounds _ _ _ _ hq).1
        show base + i < q.startOffset
        omega

theorem scanLinesAux_lb : ∀ (fuel : Nat) (lines : List (List Char)) (base : Nat) (p : Pattern),
    p ∈ scanLinesAux fuel lines base → base ≤ p.startOffset := by
  intro fuel
  induction fuel with
  | zero => intro lines base p hp; simp [scanLinesAux] at hp
  | succ fuel ih =>
    intro lines base p hp
    cases lines with
    | nil => simp [scanLinesAux] at hp
    | cons line rest =>
      simp only [scanLinesAux] at hp
      split at hp
      · split at hp
        · simp at hp
        · rename_i k hc
          simp only [List.mem_cons] at hp
          rcases hp with rfl | hp
          · show base ≤ base
            omega
          · have := ih _ _ _ hp
            omega
      · rw [List.mem_append] at hp
        rcases hp with hp | hp
        · exact (scanLineAux_bounds _ _ _ _ hp).1
        · have := ih _ _ _ hp
          omega

theorem scanLinesAux_sorted : ∀ (fuel : Nat) (lines : List (List Char)) (base : Nat),
    (scanLinesAux fuel lines base).Pairwise (fun p q => p.startOffset < q.startOffset) := by
  intro fuel
  induction fuel with
  | zero => intro lines base; simp [scanLinesAux]
  | succ fuel ih =>
    intro lines base
    cases lines with
    | nil => simp [scanLinesAux]
    | cons line rest =>
      simp only [scanLinesAux]
      split
      · split
        · simp
        · rename_i k hc
          refine List.Pairwise.cons ?_ (ih _ _)
          intro q hq
          have := scanLinesAux_lb _ _ _ _ hq
          show base < q.startOffset
          omega
      · rw [List.pairwise_append]
        refine ⟨scanLineAux_sorted _ _ _, ih _ _, ?_⟩
        intro p hp q hq
        have h1 := (scanLineAux_bounds _ _ _ _ hp).2
        have h2 := scanLinesAux_lb _ _ _ _ hq
        omega

theorem scanPatterns_sorted (buf : List Char) :
    (scanPatterns buf).Pairwise (fun p q => p.startOffset < q.startOffset) :=
  scanLinesAux_sorted _ _ _

theorem scanUnprocessed_sorted (buf : List Char) (S : List Fingerprint) :
    (scanUnprocessed buf S).Pairwise (fun p q => p.startOffset < q.startOffset) :=
  (scanPatterns_sorted buf).sublist (List.filter_sublist _)

theorem scanUnprocessed_not_mem {buf : List Char} {S : List Fingerprint} {p : Pattern}
    (hp : p ∈ scanUnprocessed buf S) : p.fingerprint ∉ S := by
  have := List.of_mem_filter hp
  simpa using this

/-! ## WatchLoop lemmas -/

theorem tickWith_processed_mono (s : LoopState) (env : EnvInput) (ps : List Pattern) :
    ∀ f ∈ s.processed, f ∈ (tickWith s env ps).1.processed := by
  intro f hf
  cases ps with
  | nil => simpa [tickWith] using hf
  | cons p rest =>
    simp only [tickWith]
    split
    · exact hf
    · split
      · exact List.mem_cons_of_mem _ hf
      · exact hf

theorem tickWith_invoked {s : LoopState} {env : EnvInput} {ps : List Pattern} {p : Pattern}
    (h : Event.invoked p ∈ (tickWith s env ps).2) : ∃ rest, ps = p :: rest := by
  cases ps with
  | nil => simp [tickWith] at h
  | cons q rest =>
    refine ⟨rest, ?_⟩
    suffices hq : p = q by rw [hq]
    simp only [tickWith] at h
    split at h
    · simp only [List.mem_cons] at h
      rcases h with h | h
      · exact Event.invoked.inj h
      · simp at h
    · split at h
      · simp only [List.mem_cons] at h
        rcases h with h | h
        · exact Event.invoked.inj h
        · simp at h
      · simp only [List.mem_cons] at h
        rcases h with h | h
        · exact Event.invoked.inj h
        · simp at h

theorem tick_invoked_not_processed {s : LoopState} {env : EnvInput} {p : Pattern}
    (h : Event.invoked p ∈ (tick s env).2) : p.fingerprint ∉ s.processed := by
  obtain ⟨rest, hps⟩ := tickWith_invoked h
  have hmem : p ∈ scanUnprocessed s.file s.processed := by
    rw [hps]
    exact List.mem_cons_self _ _
  exact scanUnprocessed_not_mem hmem

theorem run_keeps_processed : ∀ (envs : List EnvInput) (s : LoopState) (f : Fingerprint),
    f ∈ s.processed →
    f ∈ (run s envs).1.processed ∧
      ∀ p, Event.invoked p ∈ (run s envs).2 → p.fingerprint ≠ f := by
  intro envs
  induction envs with
  | nil =>
    intro s f hf
    refine ⟨by simpa [run] using hf, ?_⟩
    intro p hp
    simp [run] at hp
  | cons e es ih =>
    intro s f hf
    have hf2 : f ∈ (tick s e).1.processed := tickWith_processed_mono s e _ f hf
    obtain ⟨h1, h2⟩ := ih (tick s e).1 f hf2
    refine ⟨by simpa [run] using h1, ?_⟩
    intro p hp
    simp only [run, List.mem_append] at hp
    rcases hp with hp | hp
    · have hnp := tick_invoked_not_processed hp
      intro hfp
      exact hnp (hfp ▸ hf)
    · exact h2 p hp

/-! ## Claim theorems -/

/-- C1: once a fingerprint `f` is recorded in the processed ledger, a scan of
any buffer against a ledger containing `f` never returns a pattern with
fingerprint `f`, and along any further run of the watch loop `f` stays
recorded and the agent is never again invoked for a pattern with fingerprint
`f` — even if its textual span still exists in the file. -/
theorem c1_idempotence (s : LoopState) (f : Fingerprint) (hf : f ∈ s.processed)
    (envs : List EnvInput) :
    (∀ (buf : List Char) (S : List Fingerprint), f ∈ S →
        ∀ p ∈ scanUnprocessed buf S, p.fingerprint ≠ f) ∧
    f ∈ (run s envs).1.processed ∧
    (∀ p, Event.invoked p ∈ (run s envs).2 → p.fingerprint ≠ f) := by
  obtain ⟨h1, h2⟩ := run_keeps_processed envs s f hf
  refine ⟨?_, h1, h2⟩
  intro buf S hfS p hp hfp
  exact (scanUnprocessed_not_mem hp) (hfp ▸ hfS)

/-- Witness for C1 at a concrete session whose ledger already contains the
fingerprint of the still-present inline pattern `ecce a ecce`. -/
theorem c1_idempotence_witness :
    (PatternKind.inline, "a") ∈
      (run (LoopState.mk "ecce a ecce".data [(PatternKind.inline, "a")])
        [EnvInput.mk (Except.ok "X") "ecce a ecce".data SpliceMode.replace]).1.processed :=
  (c1_idempotence (LoopState.mk "ecce a ecce".data [(PatternKind.inline, "a")])
    (PatternKind.inline, "a") (by decide)
    [EnvInput.mk (Except.ok "X") "ecce a ecce".data SpliceMode.replace]).2.1

/-- C2: when the span-context verification against the re-read file fails, the
splice returns `ConcurrentModificationConflict`, the processing pass writes
nothing (the resulting state holds exactly the externally re-read content),
and the pattern's fingerprint is not added to the processed ledger, so the
match is reconsidered on the next tick. -/
theorem c2_conflict_safety (s : LoopState) (env : EnvInput) (p : Pattern)
    (rest : List Pattern) (t : String)
    (hscan : scanUnprocessed s.file s.processed = p :: rest)
    (hok : env.agentResult = Except.ok t)
    (hconf : spliceCheck env.fileAtSplice s.file (p.startOffset, p.endOffset) = false) :
    splice env.fileAtSplice s.file (p.startOffset, p.endOffset) t env.mode =
      Except.error SpliceError.concurrentModificationConflict ∧
    (tick s env).1.file = env.fileAtSplice ∧
    (tick s env).1.processed = s.processed ∧
    p.fingerprint ∉ (tick s env).1.processed ∧
    (tick s env).2 = [Event.invoked p, Event.conflictDetected p.fingerprint] := by
  have hsp : splice env.fileAtSplice s.file (p.startOffset, p.endOffset) t env.mode =
      Except.error SpliceError.concurrentModificationConflict := by
    simp [splice, hconf]
  have hfp : p.fingerprint ∉ s.processed :=
    scanUnprocessed_not_mem (by rw [hscan]; exact List.mem_cons_self _ _)
  have ht : tick s env =
      (LoopState.mk env.fileAtSplice s.processed,
        [Event.invoked p, Event.conflictDetected p.fingerprint]) := by
    simp [tick, hscan, tickWith, hok, hsp]
  refine ⟨hsp, ?_, ?_, ?_, ?_⟩
  · rw [ht]
  · rw [ht]
  · rw [ht]; exact hfp
  · rw [ht]

/-- Witness for C2: the file is externally replaced by entirely different
content between scan and splice, so the context check fails. -/
theorem c2_conflict_safety_witness :
    (tick (LoopState.mk "ecce q ecce".data [])
        (EnvInput.mk (Except.ok "R") "zzzz totally different".data
          SpliceMode.replace)).1.file = "zzzz totally different".data ∧
    (tick (LoopState.mk "ecce q ecce".data [])
        (EnvInput.mk (Except.ok "R") "zzzz totally different".data
          SpliceMode.replace)).1.processed = [] := by
  have h := c2_conflict_safety (LoopState.mk "ecce q ecce".data [])
    (EnvInput.mk (Except.ok "R") "zzzz totally different".data SpliceMode.replace)
    (Pattern.mk PatternKind.inline 0 11 "q") [] "R" (by decide) rfl (by decide)
  exact ⟨h.2.1, h.2.2.1⟩

/-- C3: scanning a buffer twice with the same processed-fingerprint set yields
the same ordered match list (the scan is a pure function of buffer and set),
and every returned match's fingerprint is outside the processed set. -/
theorem c3_scan_determinism_filter (b : List Char) (S : List Fingerprint) :
    scanUnprocessed b S = scanUnprocessed b S ∧
    ∀ p ∈ scanUnprocessed b S, p.fingerprint ∉ S :=
  ⟨rfl, fun _ hp => scanUnprocessed_not_mem hp⟩

/-- Witness for C3: in a buffer with two inline patterns of which one is
already processed, the returned match is unprocessed. -/
theorem c3_scan_determinism_filter_witness :
    Pattern.mk PatternKind.inline 12 23 "b" ∈
      scanUnprocessed "ecce a ecce ecce b ecce".data [(PatternKind.inline, "a")] ∧
    (Pattern.mk PatternKind.inline 12 23 "b").fingerprint ∉
      ([(PatternKind.inline, "a")] : List Fingerprint) :=
  ⟨by decide,
   (c3_scan_determinism_filter "ecce a ecce ecce b ecce".data
      [(PatternKind.inline, "a")]).2 (Pattern.mk PatternKind.inline 12 23 "b") (by decide)⟩

/-- C4: the scanner produces matches in strictly ascending start-offset order
from one buffer snapshot, and in a processing pass the watch loop's agent
invocation is for the first listed match — the one whose start offset is
strictly below every other unprocessed match's. -/
theorem c4_ordering (s : LoopState) :
    (scanUnprocessed s.file s.processed).Pairwise
      (fun p q => p.startOffset < q.startOffset) ∧
    ∀ (env : EnvInput) (p : Pattern) (rest : List Pattern),
      scanUnprocessed s.file s.processed = p :: rest →
      (tick s env).2.head? = some (Event.invoked p) ∧
      ∀ q ∈ rest, p.startOffset < q.startOffset := by
  refine ⟨scanUnprocessed_sorted _ _, ?_⟩
  intro env p rest hscan
  constructor
  · simp only [tick, hscan, tickWith]
    split
    · rfl
    · split
      · rfl
      · rfl
  · have hs := scanUnprocessed_sorted s.file s.processed
    rw [hscan] at hs
    exact fun q hq => (List.pairwise_cons.mp hs).1 q hq

/-- Witness for C4: with two unprocessed inline matches at offsets 0 and 12,
the pass invokes the one at offset 0, which is strictly first. -/
theorem c4_ordering_witness :
    (tick (LoopState.mk "ecce a ecce ecce b ecce".data [])
        (EnvInput.mk (Except.ok "R") "ecce a ecce ecce b ecce".data
          SpliceMode.replace)).2.head? =
      some (Event.invoked (Pattern.mk PatternKind.inline 0 11 "a")) ∧
    (Pattern.mk PatternKind.inline 0 11 "a").startOffset <
      (Pattern.mk PatternKind.inline 12 23 "b").startOffset := by
  have h := (c4_ordering (LoopState.mk "ecce a ecce ecce b ecce".data [])).2
    (EnvInput.mk (Except.ok "R") "ecce a ecce ecce b ecce".data SpliceMode.replace)
    (Pattern.mk PatternKind.inline 0 11 "a") [Pattern.mk PatternKind.inline 12 23 "b"]
    (by decide)
  exact ⟨h.1, h.2 (Pattern.mk PatternKind.inline 12 23 "b") (by decide)⟩

set_option maxRecDepth 8000 in
/-- C5: the scanner recognises exactly the two `ecce` marker syntaxes — the
one-line inline form (extracting the trimmed prompt between the two marker
occurrences, and yielding nothing for an unclosed marker) and the fenced block
whose language tag is `ecce` (extracting the interior verbatim) — and the
`ecce_homo_info` tool text documents exactly these two pattern types (its two
`###` subsections, showing the inline form and the `ecce`-tagged fence). -/
theorem c5_pattern_syntax :
    scanPatterns "ecce what is 2+2? ecce".data =
      [Pattern.mk PatternKind.inline 0 22 "what is 2+2?"] ∧
    scanPatterns "```ecce\nline one\nline two\n```".data =
      [Pattern.mk PatternKind.block 0 29 "line one\nline two"] ∧
    scanPatterns "ecce no closing marker here".data = [] ∧
    countSub "### ".data homoInfoText.data = 2 ∧
    occursSub "### Inline Pattern".data homoInfoText.data = true ∧
    occursSub "### Code Block Pattern".data homoInfoText.data = true ∧
    occursSub "`ecce <your prompt here> ecce`".data homoInfoText.data = true ∧
    occursSub "```ecce".data homoInfoText.data = true := by
  refine ⟨by decide, by decide, by decide, by decide, by decide, by decide, by decide,
    by decide⟩

set_option maxRecDepth 8000 in
/-- C6: the usage section of the `ecce_homo_info` tool text advertises
`--agent <name>`, `--task <name>` and an interval option with default 100ms,
but the interval flag it prints is `--interval <ms>` — the flag
`--watch-interval` documented for the watch command by the repository README
(and the spec) does not occur in the text. -/
theorem c6_homo_info_flags :
    occursSub "--agent <name>".data homoInfoText.data = true ∧
    occursSub "--task <name>".data homoInfoText.data = true ∧
    occursSub "--interval <ms>".data homoInfoText.data = true ∧
    occursSub "(default: 100ms)".data homoInfoText.data = true ∧
    occursSub "--watch-interval".data homoInfoText.data = false := by
  refine ⟨by decide, by decide, by decide, by decide, by decide⟩

/-- C7: for every management tool, the response text is exactly
`stdout || stderr || fallback` of the single spawn of the `ecce` executable
with that tool's subcommand arguments, where the fallback is a fixed string
depending only on the tool and its arguments (empty for the list/status
tools); the handler consults no configuration of its own. -/
theorem c7_tool_text_from_process (name : String) (a : ToolArgs)
    (runner : List String → RunResult) (h : name ∈ managementTools) :
    callToolBody runner name a =
      ToolResponse.mk
        (jsOr (runner (ecceCmdArgs name a)).stdout
          (jsOr (runner (ecceCmdArgs name a)).stderr (ecceFallback name a))) false := by
  have hjs : ∀ x : String, jsOr x "" = x := by
    intro x
    by_cases hx : x = "" <;> simp [jsOr, hx]
  fin_cases h <;>
    first
      | rfl
      | (show ToolResponse.mk (jsOr _ _) false = ToolResponse.mk (jsOr _ (jsOr _ "")) false
         rw [hjs]
         try rfl)

/-- Witness for C7 at the `ecce_api_list` tool and a concrete runner. -/
theorem c7_tool_text_from_process_witness :
    callToolBody (fun _ => RunResult.mk "OUT" "" 0) "ecce_api_list"
        (ToolArgs.mk "" "" "" "" "" "" "" "" "" "" false false) =
      ToolResponse.mk
        (jsOr ((fun _ => RunResult.mk "OUT" "" 0)
            (ecceCmdArgs "ecce_api_list"
              (ToolArgs.mk "" "" "" "" "" "" "" "" "" "" false false))).stdout
          (jsOr ((fun _ => RunResult.mk "OUT" "" 0)
              (ecceCmdArgs "ecce_api_list"
                (ToolArgs.mk "" "" "" "" "" "" "" "" "" "" false false))).stderr
            (ecceFallback "ecce_api_list"
              (ToolArgs.mk "" "" "" "" "" "" "" "" "" "" false false)))) false :=
  c7_tool_text_from_process "ecce_api_list"
    (ToolArgs.mk "" "" "" "" "" "" "" "" "" "" false false)
    (fun _ => RunResult.mk "OUT" "" 0) (by decide)

/-- C9: `runEcce` is a total function of the process outcome (the promise
executor only ever resolves): a spawn error resolves to empty stdout, the
error message as stderr and code 1; a close with null exit code reports
code 1; otherwise the accumulated streams and the child's exit code. -/
theorem c9_runEcce_total :
    (∀ m, runEcce (ProcOutcome.errored m) = RunResult.mk "" m 1) ∧
    (∀ out err, runEcce (ProcOutcome.closed out err none) = RunResult.mk out err 1) ∧
    (∀ out err k, runEcce (ProcOutcome.closed out err (some k)) = RunResult.mk out err k) :=
  ⟨fun _ => rfl, fun _ _ => rfl, fun _ _ _ => rfl⟩

/-! ## Resource-handler lemmas -/

theorem jsStrEqOpt_true_iff (s : String) (o : Option String) :
    jsStrEqOpt s o = true ↔ o = some s := by
  cases o with
  | none => simp [jsStrEqOpt]
  | some t =>
    simp only [jsStrEqOpt, beq_iff_eq, Option.some.injEq]
    exact ⟨fun h => h.symm, fun h => h.symm⟩

theorem configJson_rekey (f : String → String) (c : EcceConfig) :
    configJson (rekeyProfiles f c) = configJson c := by
  unfold configJson rekeyProfiles
  rw [List.map_map]
  rfl

theorem profilesJson_rekey (f : String → String) (c : EcceConfig) :
    profilesJson (rekeyProfiles f c) = profilesJson c := by
  unfold profilesJson rekeyProfiles
  rw [List.map_map]
  rfl

/-- C8: the `ecce://config` and `ecce://profiles` resource outputs are
invariant under arbitrary replacement of every profile's api_key (so no raw
key can flow into them); each profile object of `ecce://config` carries the
literal `***hidden***` as its api_key; and each `ecce://profiles` entry has
exactly the fields name, url, is_active and is_default, where is_active holds
exactly when the profile's name equals active_profile, and is_default exactly
when it equals default_profile. -/
theorem c8_resources_hide_keys (c : EcceConfig) (f : String → String) :
    readResource (some (rekeyProfiles f c)) "ecce://config" =
      readResource (some c) "ecce://config" ∧
    readResource (some (rekeyProfiles f c)) "ecce://profiles" =
      readResource (some c) "ecce://profiles" ∧
    (∀ p ∈ c.profiles, maskedProfileJson p =
      Json.obj [("name", Json.str p.name), ("url", Json.str p.url),
        ("api_key", Json.str "***hidden***")]) ∧
    (∀ p ∈ c.profiles,
      profileEntryJson c p =
        Json.obj [("name", Json.str p.name), ("url", Json.str p.url),
          ("is_active", Json.bool (jsStrEqOpt p.name c.active_profile)),
          ("is_default", Json.bool (jsStrEqOpt p.name c.default_profile))] ∧
      (jsStrEqOpt p.name c.active_profile = true ↔ c.active_profile = some p.name) ∧
      (jsStrEqOpt p.name c.default_profile = true ↔ c.default_profile = some p.name)) := by
  refine ⟨?_, ?_, ?_, ?_⟩
  · exact congrArg
      (fun j => ResourceContent.mk "ecce://config" "application/json" (RBody.jsonBody j))
      (configJson_rekey f c)
  · exact congrArg
      (fun j => ResourceContent.mk "ecce://profiles" "application/json" (RBody.jsonBody j))
      (profilesJson_rekey f c)
  · intro p _
    rfl
  · intro p _
    exact ⟨rfl, jsStrEqOpt_true_iff _ _, jsStrEqOpt_true_iff _ _⟩

/-- Witness for C8 at a one-profile configuration whose key is rewritten to a
sentinel value, with the profile active but not default. -/
theorem c8_resources_hide_keys_witness :
    readResource (some (rekeyProfiles (fun _ => "LEAKED")
        (EcceConfig.mk [Profile.mk "p1" "u1" "k1"] (some "p1") none [] [] [] none none)))
      "ecce://profiles" =
    readResource (some
        (EcceConfig.mk [Profile.mk "p1" "u1" "k1"] (some "p1") none [] [] [] none none))
      "ecce://profiles" ∧
    (jsStrEqOpt "p1" (some "p1") = true ↔ (some "p1" : Option String) = some "p1") ∧
    (jsStrEqOpt "p1" (none : Option String) = true ↔
      (none : Option String) = some "p1") := by
  have h := c8_resources_hide_keys
    (EcceConfig.mk [Profile.mk "p1" "u1" "k1"] (some "p1") none [] [] [] none none)
    (fun _ => "LEAKED")
  exact ⟨h.2.1, (h.2.2.2 (Profile.mk "p1" "u1" "k1") (by decide)).2.1,
    (h.2.2.2 (Profile.mk "p1" "u1" "k1") (by decide)).2.2⟩

/-- C10: every CallTool and ReadResource request gets a well-formed response —
a caught exception yields an `Error: `-prefixed text with isError, an
unrecognised tool name yields `Unknown tool: <name>` with isError, an unknown
resource uri yields a text/plain `Unknown resource: <uri>` body, and a missing
or unparseable config makes every resource read return the JSON error document
`Config not found. Run 'ecce' to initialize.` instead of failing. -/
theorem c10_error_paths :
    (∀ m, callToolHandler (Except.error m) = ToolResponse.mk ("Error: " ++ m) true) ∧
    (∀ r, callToolHandler (Except.ok r) = r) ∧
    (∀ (runner : List String → RunResult) (a : ToolArgs) (name : String),
      name ∉ knownToolNames →
      callToolBody runner name a = ToolResponse.mk ("Unknown tool: " ++ name) true) ∧
    (∀ (c : EcceConfig) (uri : String), uri ∉ resourceUris →
      readResource (some c) uri =
        ResourceContent.mk uri "text/plain" (RBody.plainBody ("Unknown resource: " ++ uri))) ∧
    (∀ uri, readResource none uri =
      ResourceContent.mk uri "application/json" (RBody.jsonBody configNotFoundJson)) := by
  refine ⟨fun _ => rfl, fun _ => rfl, ?_, ?_, fun _ => rfl⟩
  · intro runner a name h
    simp only [knownToolNames, managementTools, List.mem_append, List.mem_cons,
      List.not_mem_nil, or_false, not_or] at h
    obtain ⟨⟨h1, h2, h3, h4, h5, h6, h7, h8, h9, h10, h11, h12, h13, h14, h15, h16,
      h17, h18, h19, h20, h21, h22⟩, h23⟩ := h
    simp only [callToolBody, h1, h2, h3, h4, h5, h6, h7, h8, h9, h10, h11, h12, h13,
      h14, h15, h16, h17, h18, h19, h20, h21, h22, h23, if_false]
  · intro c uri h
    simp only [resourceUris, List.mem_cons, List.not_mem_nil, or_false, not_or] at h
    obtain ⟨h1, h2, h3, h4, h5⟩ := h
    simp only [readResource, h1, h2, h3, h4, h5, if_false]

/-- Witness for C10 at an unknown tool name and an unknown resource uri. -/
theorem c10_error_paths_witness :
    callToolBody (fun _ => RunResult.mk "" "" 0) "bogus"
        (ToolArgs.mk "" "" "" "" "" "" "" "" "" "" false false) =
      ToolResponse.mk ("Unknown tool: " ++ "bogus") true ∧
    readResource (some (EcceConfig.mk [] none none [] [] [] none none)) "ecce://bogus" =
      ResourceContent.mk "ecce://bogus" "text/plain"
        (RBody.plainBody ("Unknown resource: " ++ "ecce://bogus")) :=
  ⟨c10_error_paths.2.2.1 (fun _ => RunResult.mk "" "" 0)
      (ToolArgs.mk "" "" "" "" "" "" "" "" "" "" false false) "bogus" (by decide),
   c10_error_paths.2.2.2.1 (EcceConfig.mk [] none none [] [] [] none none)
      "ecce://bogus" (by decide)⟩

end Ecce
